import Mathlib

/-!
Verification of the ICO magic-byte validator (`src/validate_ico.rs`).

The file system is modelled as a function from path strings to entries:
opening a path either yields the file's byte content or fails with an
error description (missing path, permission denied, directory, ...).
`is_valid_ico` is embedded together with the sequence of file-system
operations it performs, so that resource and frame properties can be
stated about the same definition that produces the verdict.
-/

namespace ValidateIco

/-- What `File::open` yields at a path: a readable file with its byte
content, or an open failure carrying the error's description. -/
inductive FsEntry where
  | file (content : List Nat)
  | openFail (cause : String)
deriving DecidableEq

/-- The file-system state: what opening each path yields. -/
def Fs : Type := String → FsEntry

/-- The errors `is_valid_ico` can return through its `Result` channel:
the open failure, or `read_exact` hitting end of file before filling
the four-byte buffer. -/
inductive IcoError where
  | openError (cause : String)
  | unexpectedEof
deriving DecidableEq

/-- The `Display` rendering of the error, as `{}` formats it in Rust:
an open failure shows the underlying cause, and `read_exact` on a short
file shows the standard unexpected-end-of-file message. -/
def IcoError.display : IcoError → String
  | .openError cause => cause
  | .unexpectedEof => "failed to fill whole buffer"

/-- The four-octet ICO magic constant `[0, 0, 1, 0]` compared against
the header buffer. -/
def icoMagic : List Nat := [0, 0, 1, 0]

/-- One observable file-system operation performed by the program. -/
inductive FsOp where
  | acquire (path : String)
  | readBytes (n : Nat)
  | writeBytes (path : String) (content : List Nat)
  | release
deriving DecidableEq

/-- Whether an operation mutates file-system state: only a write does. -/
def FsOp.mutates : FsOp → Bool
  | .writeBytes _ _ => true
  | _ => false

/-- Whether an operation acquires a file handle. -/
def FsOp.isAcquire : FsOp → Bool
  | .acquire _ => true
  | _ => false

/-- Whether an operation releases a file handle. -/
def FsOp.isRelease : FsOp → Bool
  | .release => true
  | _ => false

/-- Writing `content` to `path`: the file-system state after the write. -/
def fsWrite (fs : Fs) (path : String) (content : List Nat) : Fs :=
  fun p => if p = path then .file content else fs p

/-- The effect of one operation on the file-system state: a write
replaces the target's content, every other operation leaves the state
unchanged. -/
def applyOp (fs : Fs) : FsOp → Fs
  | .writeBytes path content => fsWrite fs path content
  | _ => fs

/-- The file-system state after a sequence of operations. -/
def applyOps (fs : Fs) (ops : List FsOp) : Fs :=
  ops.foldl applyOp fs

/-- Embedding of `is_valid_ico` from src/validate_ico.rs, paired with
the trace of file-system operations it performs. `File::open(path)?`
either fails (no handle is ever acquired) or acquires a handle;
`read_exact` on a four-byte buffer errors when the file holds fewer
than four octets and otherwise fills the buffer with the first four
octets; the handle is dropped on every exit path after a successful
open, including the early `?` return. The result is
`Ok(header == [0, 0, 1, 0])`. -/
def is_valid_ico_run (fs : Fs) (path : String) :
    Except IcoError Bool × List FsOp :=
  match fs path with
  | .openFail cause => (.error (.openError cause), [])
  | .file content =>
      if content.length < 4 then
        (.error .unexpectedEof, [.acquire path, .readBytes 4, .release])
      else
        (.ok (content.take 4 == icoMagic),
         [.acquire path, .readBytes 4, .release])

/-- The value `is_valid_ico` returns: `Ok(bool)` or an error. -/
def is_valid_ico (fs : Fs) (path : String) : Except IcoError Bool :=
  (is_valid_ico_run fs path).1

/-- The file-system operations `is_valid_ico` performs. -/
def is_valid_ico_trace (fs : Fs) (path : String) : List FsOp :=
  (is_valid_ico_run fs path).2

/-- The three outcomes of validation, as the spec names them. -/
inductive Verdict where
  | Valid
  | Invalid
  | IoFailure (cause : String)
deriving DecidableEq

/-- The validation verdict: `Ok(true)` is `Valid`, `Ok(false)` is
`Invalid`, and an error is `IoFailure` carrying its rendering. -/
def validate (fs : Fs) (path : String) : Verdict :=
  match is_valid_ico fs path with
  | .ok true => .Valid
  | .ok false => .Invalid
  | .error e => .IoFailure e.display

/-- The compiled-in target path from `main`. -/
def icon_path : String := "src-tauri/icons/icon.ico"

/-- The observable result of a process run: the lines written to each
stream and the exit code. -/
structure ProcResult where
  stdout : List String
  stderr : List String
  exitCode : Nat
deriving DecidableEq

/-- Embedding of `main` from src/validate_ico.rs: it validates the
compiled-in path, writes one line to the matching stream, and exits
with 0 on `Ok(true)` and 1 otherwise. -/
def main (fs : Fs) : ProcResult :=
  match validate fs icon_path with
  | .Valid =>
      { stdout := ["✓ " ++ icon_path ++ " is a valid Windows ICO file"]
        stderr := []
        exitCode := 0 }
  | .Invalid =>
      { stdout := []
        stderr := ["✗ " ++ icon_path ++ " is not a valid ICO file!"]
        exitCode := 1 }
  | .IoFailure cause =>
      { stdout := []
        stderr := ["Error checking " ++ icon_path ++ ": " ++ cause]
        exitCode := 1 }

/-- A file system holding a valid eight-octet ICO file at the target
path (the spec's first concrete scenario). -/
def fsValid : Fs := fun p =>
  if p = "src-tauri/icons/icon.ico" then
    .file [0, 0, 1, 0, 1, 0, 16, 16]
  else
    .openFail "No such file or directory (os error 2)"

/-- A file system holding a CUR-magic file at the target path. -/
def fsCur : Fs := fun p =>
  if p = "src-tauri/icons/icon.ico" then
    .file [0, 0, 2, 0]
  else
    .openFail "No such file or directory (os error 2)"

/-- A file system holding a two-octet file at the target path. -/
def fsShort : Fs := fun p =>
  if p = "src-tauri/icons/icon.ico" then
    .file [0, 0]
  else
    .openFail "No such file or directory (os error 2)"

/-- A file system where every open fails with a not-found cause. -/
def fsMissing : Fs := fun _ =>
  .openFail "No such file or directory (os error 2)"

/-- Claim C1: on a file whose first four octets can be read, the verdict
is `Valid` exactly when those octets are the ICO magic and `Invalid`
otherwise; it is a function of the first four octets alone, so bytes
after offset 3 never influence it. -/
theorem validate_magic_iff (fs : Fs) (path : String) (bytes : List Nat)
    (hfile : fs path = .file bytes) (hlen : 4 ≤ bytes.length) :
    validate fs path =
      (if bytes.take 4 = icoMagic then .Valid else .Invalid) := by
  have h4 : ¬ bytes.length < 4 := not_lt.mpr hlen
  unfold validate is_valid_ico is_valid_ico_run
  rw [hfile]
  simp only [h4, if_false]
  by_cases h : bytes.take 4 = icoMagic
  · rw [beq_iff_eq.mpr h]
    simp [h]
  · rw [beq_eq_false_iff_ne.mpr h]
    simp [h]

/-- Witness for C1 at the spec's eight-octet scenario file. -/
theorem validate_magic_iff_witness :
    fsValid icon_path = .file [0, 0, 1, 0, 1, 0, 16, 16] ∧
    4 ≤ ([0, 0, 1, 0, 1, 0, 16, 16] : List Nat).length ∧
    validate fsValid icon_path =
      (if ([0, 0, 1, 0, 1, 0, 16, 16] : List Nat).take 4 = icoMagic
       then .Valid else .Invalid) :=
  ⟨by decide, by decide,
   validate_magic_iff fsValid icon_path [0, 0, 1, 0, 1, 0, 16, 16]
     (by decide) (by decide)⟩

/-- Claim C2: a file shorter than four octets yields `IoFailure` with
the unexpected-end-of-file cause, never `Valid` and never `Invalid`. -/
theorem validate_short_file (fs : Fs) (path : String) (bytes : List Nat)
    (hfile : fs path = .file bytes) (hlen : bytes.length < 4) :
    validate fs path = .IoFailure "failed to fill whole buffer" := by
  unfold validate is_valid_ico is_valid_ico_run
  rw [hfile]
  simp [hlen, IcoError.display]

/-- Witness for C2 at the spec's two-octet scenario file. -/
theorem validate_short_file_witness :
    fsShort icon_path = .file [0, 0] ∧
    ([0, 0] : List Nat).length < 4 ∧
    validate fsShort icon_path = .IoFailure "failed to fill whole buffer" :=
  ⟨by decide, by decide,
   validate_short_file fsShort icon_path [0, 0] (by decide) (by decide)⟩

/-- Claim C3: when opening the path fails, the verdict is `IoFailure`
carrying the underlying error description, never `Invalid`. -/
theorem validate_open_fault (fs : Fs) (path : String) (cause : String)
    (hfail : fs path = .openFail cause) :
    validate fs path = .IoFailure cause := by
  unfold validate is_valid_ico is_valid_ico_run
  rw [hfail]
  simp [IcoError.display]

/-- Witness for C3 on a file system where the path does not exist. -/
theorem validate_open_fault_witness :
    fsMissing icon_path =
      .openFail "No such file or directory (os error 2)" ∧
    validate fsMissing icon_path =
      .IoFailure "No such file or directory (os error 2)" :=
  ⟨by decide,
   validate_open_fault fsMissing icon_path
     "No such file or directory (os error 2)" (by decide)⟩

/-- Claim C4: the exit code is 0 exactly when the verdict is `Valid`
and 1 on both `Invalid` and `IoFailure`, which are therefore
indistinguishable by exit code. -/
theorem main_exit_code (fs : Fs) :
    (main fs).exitCode =
      (if validate fs icon_path = .Valid then 0 else 1) := by
  unfold main
  cases h : validate fs icon_path <;> simp [h]

/-- Claim C5: the `Valid` outcome writes exactly one line to stdout and
none to stderr, and both failure outcomes write exactly one line to
stderr and none to stdout. -/
theorem main_stream_discipline (fs : Fs) :
    (main fs).stdout.length =
      (if validate fs icon_path = .Valid then 1 else 0) ∧
    (main fs).stderr.length =
      (if validate fs icon_path = .Valid then 0 else 1) := by
  unfold main
  cases h : validate fs icon_path <;> simp [h]

/-- Claim C6: the `Valid` stdout line and the `Invalid` stderr line are
exactly the checkmark and cross messages naming the target path. -/
theorem main_verdict_lines (fs : Fs) :
    (validate fs icon_path = .Valid →
      (main fs).stdout =
        ["✓ " ++ icon_path ++ " is a valid Windows ICO file"]) ∧
    (validate fs icon_path = .Invalid →
      (main fs).stderr =
        ["✗ " ++ icon_path ++ " is not a valid ICO file!"]) := by
  unfold main
  cases h : validate fs icon_path <;> simp [h]

/-- Witness for C6: the valid scenario file produces the checkmark
stdout line and the CUR-magic file produces the cross stderr line. -/
theorem main_verdict_lines_witness :
    (main fsValid).stdout =
      ["✓ " ++ icon_path ++ " is a valid Windows ICO file"] ∧
    (main fsCur).stderr =
      ["✗ " ++ icon_path ++ " is not a valid ICO file!"] :=
  ⟨(main_verdict_lines fsValid).1 (by decide),
   (main_verdict_lines fsCur).2 (by decide)⟩

/-- Claim C7: writing exactly the four magic octets to any path of any
file system and validating that path yields `Valid`. -/
theorem validate_round_trip (fs : Fs) (path : String) :
    validate (fsWrite fs path icoMagic) path = .Valid := by
  unfold validate is_valid_ico is_valid_ico_run fsWrite
  simp [icoMagic]

/-- Claim C8: the validator's operation trace contains no mutating
operation, leaves the file-system state unchanged, and acquires exactly
as many file handles as it releases on every outcome. -/
theorem validate_no_mutation (fs : Fs) (path : String) :
    (∀ op ∈ is_valid_ico_trace fs path, op.mutates = false) ∧
    applyOps fs (is_valid_ico_trace fs path) = fs ∧
    ((is_valid_ico_trace fs path).filter FsOp.isAcquire).length =
      ((is_valid_ico_trace fs path).filter FsOp.isRelease).length := by
  unfold is_valid_ico_trace is_valid_ico_run
  cases h : fs path with
  | openFail cause => simp [applyOps]
  | file content =>
      by_cases hlen : content.length < 4 <;>
        simp [hlen, applyOps, applyOp, FsOp.mutates, FsOp.isAcquire,
          FsOp.isRelease, List.foldl]

/-- Claim C9: `is_valid_ico` is total: on every file system and path it
returns either an error through the `Result` channel or `Ok` of the
boolean produced by comparing the first four octets with the magic. -/
theorem is_valid_ico_total (fs : Fs) (path : String) :
    (∃ e, is_valid_ico fs path = .error e) ∨
    (∃ bytes, fs path = .file bytes ∧ 4 ≤ bytes.length ∧
      is_valid_ico fs path = .ok (bytes.take 4 == icoMagic)) := by
  unfold is_valid_ico is_valid_ico_run
  cases h : fs path with
  | openFail cause => exact Or.inl ⟨.openError cause, by simp⟩
  | file content =>
      by_cases hlen : content.length < 4
      · exact Or.inl ⟨.unexpectedEof, by simp [hlen]⟩
      · exact Or.inr ⟨content, rfl, not_lt.mp hlen, by simp [hlen]⟩

/-- Claim C10: on an `IoFailure` outcome the single stderr line is
exactly "Error checking <path>: <cause>" where the path is the
compiled-in literal. -/
theorem main_io_failure_line (fs : Fs) (cause : String)
    (hfail : validate fs icon_path = .IoFailure cause) :
    (main fs).stderr = ["Error checking " ++ icon_path ++ ": " ++ cause] ∧
    icon_path = "src-tauri/icons/icon.ico" := by
  unfold main
  rw [hfail]
  exact ⟨rfl, rfl⟩

/-- Witness for C10 on the missing-path file system. -/
theorem main_io_failure_line_witness :
    (main fsMissing).stderr =
      ["Error checking " ++ icon_path ++
        ": No such file or directory (os error 2)"] ∧
    icon_path = "src-tauri/icons/icon.ico" := by
  have h := main_io_failure_line fsMissing
    "No such file or directory (os error 2)" (by decide)
  exact ⟨h.1, h.2⟩

end ValidateIco
